import Mathlib

/-!
Shallow embedding of the EcoScanApp backend (src/backend/main.py).

Python floats are modelled as rationals, Python `None`-able values as
`Option`, Python dict `.get` with a default as `Option.getD`, and the
two HTTP endpoints as pure functions from their inputs plus the outcome
of each outbound call, returning the produced result together with the
list of outbound network calls that the request issued.
-/

namespace EcoScan

/-- Recommendation model of the Pydantic class: icon glyph, text, priority. -/
structure Recommendation where
  icon : String
  text : String
  priority : String
deriving DecidableEq, Repr

/-- Carbon footprint threshold (kg CO2e per unit), CARBON_THRESHOLD = 2.0. -/
def CARBON_THRESHOLD : ℚ := 2

/-- Python str.lower, modelled characterwise over the ASCII range. -/
def str_lower (s : String) : String := ⟨s.data.map Char.toLower⟩

/-- Python str.upper, modelled characterwise over the ASCII range. -/
def str_upper (s : String) : String := ⟨s.data.map Char.toUpper⟩

/-- Python str.strip with no argument: remove leading and trailing whitespace. -/
def python_strip (s : String) : String :=
  ⟨((s.data.dropWhile (·.isWhitespace)).reverse.dropWhile (·.isWhitespace)).reverse⟩

/-- Python str.split on a one-character separator, here the comma: the list
of the maximal separator-free segments, one more segment than separators. -/
def splitComma : List Char → List (List Char)
  | [] => [[]]
  | c :: cs =>
    if c = ',' then [] :: splitComma cs
    else
      match splitComma cs with
      | [] => [[c]]
      | h :: t => (c :: h) :: t

/-- Python str.isdigit: true iff the string is nonempty and every character is a digit. -/
def python_isdigit (s : String) : Bool :=
  !s.toList.isEmpty && s.toList.all Char.isDigit

/-- The barcode shape test used by both endpoints:
`gtin.isdigit() and len(gtin) in [8, 12, 13, 14]`. -/
def valid_gtin (s : String) : Bool :=
  python_isdigit s && (s.length = 8 || s.length = 12 || s.length = 13 || s.length = 14)

/-- Outcome of PIL open + pyzbar decode on the uploaded image: either some
exception was raised, or a list of decoded symbol payloads (possibly empty). -/
inductive DecodeOutcome where
  | exception
  | symbols (payloads : List String)
deriving DecidableEq, Repr

/-- Embedding of extract_gtin_from_image, with the image-decoding library
call abstracted as its outcome. Any exception yields None; no symbols
yields None; otherwise the first payload is validated. -/
def extract_gtin_from_image (d : DecodeOutcome) : Option String :=
  match d with
  | .exception => none
  | .symbols [] => none
  | .symbols (g :: _) =>
    if python_isdigit g && (g.length = 8 || g.length = 12 || g.length = 13 || g.length = 14)
    then some g else none

/-- Embedding of get_eco_score_value: lowercase the grade and look it up in
the dict a..e, defaulting to 50. The Python function guards a falsy
argument by lowering the empty string, which lowers to itself. -/
def get_eco_score_value (eco_score : String) : Nat :=
  let k := str_lower eco_score
  if k = "a" then 95
  else if k = "b" then 80
  else if k = "c" then 65
  else if k = "d" then 45
  else if k = "e" then 20
  else 50

/-- Nested agribalyse object of the upstream ecoscore_data. -/
structure Agribalyse where
  co2_total : Option ℚ := none
deriving DecidableEq, Repr

/-- Nested ecoscore_data object of the upstream product. -/
structure EcoscoreData where
  agribalyse : Option Agribalyse := none
deriving DecidableEq, Repr

/-- The upstream product object, restricted to the attributes the backend reads. -/
structure ProductAttrs where
  product_name : Option String := none
  product_name_en : Option String := none
  brands : Option String := none
  image_front_url : Option String := none
  categories : Option String := none
  ingredients_text_en : Option String := none
  nutriscore_grade : Option String := none
  ecoscore_grade : Option String := none
  packaging_tags : List String := []
  ecoscore_data : Option EcoscoreData := none
deriving DecidableEq, Repr

/-- Round to the nearest integer, ties to the even integer, the rounding
Python string formatting applies. -/
def roundHalfEven (q : ℚ) : ℤ :=
  let f := ⌊q⌋
  let frac := q - f
  if frac < 1/2 then f
  else if 1/2 < frac then f + 1
  else if f % 2 = 0 then f else f + 1

/-- Two-decimal rendering of a number, the model of the Python format
specifier .2f applied to the carbon figure. -/
def formatTwoDec (q : ℚ) : String :=
  let n := roundHalfEven (q * 100)
  let sign := if n < 0 then "-" else ""
  let a := n.natAbs
  let ip := a / 100
  let fp := a % 100
  sign ++ toString ip ++ "." ++ (if fp < 10 then "0" else "") ++ toString fp

/-- Substring test used by the packaging rule: the Python expression
`'plastic' in p.lower()`. -/
def contains_plastic (p : String) : Bool :=
  decide ("plastic".toList <:+: (str_lower p).toList)

/-- The carbon recommendation literal appended by rule 1. -/
def carbonRec (c : ℚ) : Recommendation :=
  { icon := "🌍"
  , text := "High carbon footprint (" ++ formatTwoDec c
      ++ " kg CO2e). Consider eco-friendly alternatives below."
  , priority := "high" }

/-- The low-environmental-score recommendation literal (eco grade d or e). -/
def ecoLowRec : Recommendation :=
  { icon := "🌱"
  , text := "Low environmental score - look for products with better eco ratings"
  , priority := "high" }

/-- The good-environmental-score recommendation literal (eco grade a or b). -/
def ecoGoodRec : Recommendation :=
  { icon := "✅"
  , text := "Good environmental score! This product has lower environmental impact"
  , priority := "low" }

/-- The nutrition recommendation literal (nutri grade d or e), text carrying
the uppercased grade. -/
def nutriRec (nutri_score : String) : Recommendation :=
  { icon := "❤️"
  , text := "Nutrition score is " ++ str_upper nutri_score ++ " - consider healthier options"
  , priority := "medium" }

/-- The plastic-packaging recommendation literal. -/
def packagingRec : Recommendation :=
  { icon := "♻️"
  , text := "Contains plastic packaging - recycle properly or choose alternatives with less plastic"
  , priority := "medium" }

/-- The default recommendation literal, emitted when no rule fired. -/
def defaultRec : Recommendation :=
  { icon := "✅"
  , text := "This product has acceptable sustainability metrics"
  , priority := "low" }

/-- Embedding of generate_recommendations. The carbon guard
`if carbon_footprint and carbon_footprint > CARBON_THRESHOLD` tests Python
float truthiness (nonzero) and the threshold; the grade guards read the
dict entries with default the empty string. -/
def generate_recommendations (product_data : ProductAttrs) (carbon_footprint : ℚ) :
    List Recommendation :=
  let eco_score := product_data.ecoscore_grade.getD ""
  let nutri_score := product_data.nutriscore_grade.getD ""
  let recommendations : List Recommendation := []
  let recommendations :=
    if carbon_footprint ≠ 0 ∧ carbon_footprint > CARBON_THRESHOLD
    then recommendations ++ [carbonRec carbon_footprint] else recommendations
  let recommendations :=
    if eco_score ∈ ["d", "e"] then recommendations ++ [ecoLowRec]
    else if eco_score ∈ ["a", "b"] then recommendations ++ [ecoGoodRec]
    else recommendations
  let recommendations :=
    if nutri_score ∈ ["d", "e"] then recommendations ++ [nutriRec nutri_score]
    else recommendations
  let recommendations :=
    if product_data.packaging_tags.any contains_plastic
    then recommendations ++ [packagingRec] else recommendations
  if recommendations.isEmpty then [defaultRec] else recommendations

/-- A candidate product in the alternatives search result. -/
structure SearchProduct where
  product_name : Option String := none
  brands : Option String := none
  ecoscore_grade : Option String := none
  image_front_small_url : Option String := none
  code : Option String := none
deriving DecidableEq, Repr

/-- An entry of the alternatives list built by fetch_alternatives. -/
structure Alternative where
  name : String
  brand : String
  eco_score : String
  image_url : Option String
  gtin : Option String
deriving DecidableEq, Repr

/-- The dict built for a passing candidate inside the fetch_alternatives loop. -/
def mkAlternative (p : SearchProduct) : Alternative :=
  { name := p.product_name.getD "Unknown"
  , brand := p.brands.getD "Unknown"
  , eco_score := p.ecoscore_grade.getD ""
  , image_url := p.image_front_small_url
  , gtin := p.code }

/-- Python truthiness of the category argument: None and the empty string
are falsy. -/
def categoryTruthy : Option String → Bool
  | none => false
  | some s => !s.isEmpty

/-- Embedding of fetch_alternatives. The outbound search call is abstracted
by searchOk (false models the exception path: network or parse failure) and
by the list of products of the parsed response. -/
def fetch_alternatives (category : Option String) (searchOk : Bool)
    (products : List SearchProduct) (current_eco_score : String) : List Alternative :=
  if !categoryTruthy category then []
  else if !searchOk then []
  else
    let current_score := get_eco_score_value current_eco_score
    let alternatives :=
      ((products.take 5).filter
        (fun p => get_eco_score_value (p.ecoscore_grade.getD "") > current_score)).map
        mkAlternative
    alternatives.take 3

/-- The parsed upstream JSON of the primary lookup, restricted to the two
fields the endpoints inspect plus the product object. -/
structure UpstreamData where
  status : Option Int := none
  product : Option ProductAttrs := none
deriving DecidableEq, Repr

/-- Outcome of the primary outbound lookup: a parsed JSON document, or the
exception path (network failure or non-JSON body). -/
inductive FetchOutcome where
  | ok (data : UpstreamData)
  | failure
deriving DecidableEq, Repr

/-- An outbound network call issued while handling one request. -/
inductive NetCall where
  | productLookup (gtin : String)
  | alternativesSearch (tag : String)
deriving DecidableEq, Repr

/-- The response model of the Pydantic ProductResponse class, numeric fields
as rationals. -/
structure ProductResponse where
  status : String
  gtin : Option String := none
  name : Option String := none
  brand : Option String := none
  image_url : Option String := none
  category : Option String := none
  ingredients_text : Option String := none
  nutri_score : Option String := none
  eco_score : Option String := none
  carbon_footprint : Option ℚ := none
  carbon_footprint_unit : Option String := none
  is_high_carbon : Bool := false
  recommendations : List Recommendation := []
  alternatives : List Alternative := []
  source : Option String := none
  message : Option String := none
deriving DecidableEq, Repr

/-- Result of one request: a well-formed response body, or an HTTPException
with its status code and detail. -/
inductive EndpointResult where
  | response (r : ProductResponse)
  | httpError (code : Nat) (detail : String)
deriving DecidableEq, Repr

/-- The carbon extraction block shared by both endpoints:
`ecoscore_data.get('agribalyse', \x7b\x7d).get('co2_total')`, run only when
ecoscore_data is truthy. -/
def extractCarbon (p : ProductAttrs) : Option ℚ :=
  match p.ecoscore_data with
  | none => none
  | some ed =>
    match ed.agribalyse with
    | none => none
    | some ag => ag.co2_total

/-- Python `carbon_footprint or 0`: a None or zero figure becomes 0. -/
def orZero : Option ℚ → ℚ
  | none => 0
  | some c => if c = 0 then 0 else c

/-- The category tag put in the search query:
`category.split(',')[0].strip()`. -/
def firstCategoryTag (category : String) : String :=
  python_strip ⟨(splitComma category.data).headD []⟩

/-- The outbound calls issued by fetch_alternatives: one search call unless
the guard `if not category` returned early. -/
def fetch_alternatives_calls (category : Option String) : List NetCall :=
  if categoryTruthy category
  then [NetCall.alternativesSearch (firstCategoryTag (category.getD ""))]
  else []

/-- The name field of a success response:
`product.get('product_name') or product.get('product_name_en', 'Unknown Product')`. -/
def nameField (p : ProductAttrs) : String :=
  match p.product_name with
  | some s => if s.isEmpty then p.product_name_en.getD "Unknown Product" else s
  | none => p.product_name_en.getD "Unknown Product"

/-- The success response built by the scan endpoint after a found product. -/
def scan_success (gtin : String) (p : ProductAttrs) (searchOk : Bool)
    (searchProducts : List SearchProduct) : ProductResponse :=
  let carbon_footprint := extractCarbon p
  let carbon_unit : Option String :=
    if p.ecoscore_data.isSome then some "kg CO2e/kg" else none
  let is_high_carbon :=
    match carbon_footprint with
    | none => false
    | some c => decide (c > CARBON_THRESHOLD)
  let recommendations := generate_recommendations p (orZero carbon_footprint)
  let alternatives :=
    if is_high_carbon
    then fetch_alternatives p.categories searchOk searchProducts (p.ecoscore_grade.getD "")
    else []
  { status := "success"
  , gtin := some gtin
  , name := some (nameField p)
  , brand := some (p.brands.getD "Unknown Brand")
  , image_url := p.image_front_url
  , category := p.categories
  , ingredients_text := p.ingredients_text_en
  , nutri_score := p.nutriscore_grade
  , eco_score := p.ecoscore_grade
  , carbon_footprint := carbon_footprint
  , carbon_footprint_unit := carbon_unit
  , is_high_carbon := is_high_carbon
  , recommendations := recommendations
  , alternatives := alternatives
  , source := some "OpenFoodFacts" }

/-- The success response built by the fetch-by-code endpoint; it differs from
the scan one only in the carbon unit, set by `"kg CO2e/kg" if carbon_footprint
else None` (truthiness of the figure, not presence of ecoscore_data). -/
def get_success (gtin : String) (p : ProductAttrs) (searchOk : Bool)
    (searchProducts : List SearchProduct) : ProductResponse :=
  let base := scan_success gtin p searchOk searchProducts
  let carbon_unit : Option String :=
    match extractCarbon p with
    | none => none
    | some c => if c = 0 then none else some "kg CO2e/kg"
  { base with carbon_footprint_unit := carbon_unit }

/-- The outbound calls of the tail shared by both endpoints once a barcode
is in hand: the primary lookup, then the conditional alternatives search. -/
def tailCalls (gtin : String) (fetch : FetchOutcome) : List NetCall :=
  match fetch with
  | .failure => [NetCall.productLookup gtin]
  | .ok data =>
    if data.product = none ∨ data.status = some 0
    then [NetCall.productLookup gtin]
    else
      match data.product with
      | none => [NetCall.productLookup gtin]
      | some p =>
        let is_high_carbon :=
          match extractCarbon p with
          | none => false
          | some c => decide (c > CARBON_THRESHOLD)
        NetCall.productLookup gtin ::
          (if is_high_carbon then fetch_alternatives_calls p.categories else [])

/-- Embedding of the POST /api/scan endpoint. The image argument is the raw
uploaded byte list; decodeRes is the outcome of the barcode library on those
bytes; fetch is the outcome of the primary lookup; searchOk and
searchProducts abstract the outcome of the alternatives search. -/
def scan_product (image_data : List UInt8) (decodeRes : DecodeOutcome)
    (fetch : FetchOutcome) (searchOk : Bool) (searchProducts : List SearchProduct) :
    EndpointResult × List NetCall :=
  if image_data.isEmpty then (.httpError 400 "Empty image file", [])
  else
    match extract_gtin_from_image decodeRes with
    | none =>
      (.response { status := "not_found"
                 , message := some "No barcode detected. Please ensure the barcode is clearly visible." }, [])
    | some gtin =>
      match fetch with
      | .failure => (.httpError 500 "Failed to fetch product data", tailCalls gtin .failure)
      | .ok data =>
        if data.product = none ∨ data.status = some 0 then
          (.response { status := "not_found"
                     , gtin := some gtin
                     , message := some ("Product with barcode " ++ gtin ++ " not found in database.") },
           tailCalls gtin (.ok data))
        else
          match data.product with
          | none => (.httpError 500 "unreachable", tailCalls gtin (.ok data))
          | some p =>
            (.response (scan_success gtin p searchOk searchProducts), tailCalls gtin (.ok data))

/-- Embedding of the GET /api/product/\x7bgtin\x7d endpoint. -/
def get_product (gtin : String) (fetch : FetchOutcome) (searchOk : Bool)
    (searchProducts : List SearchProduct) : EndpointResult × List NetCall :=
  if !valid_gtin gtin then (.httpError 400 "Invalid barcode format", [])
  else
    match fetch with
    | .failure => (.httpError 500 "Failed to fetch product data", tailCalls gtin .failure)
    | .ok data =>
      if data.product = none ∨ data.status = some 0 then
        (.response { status := "not_found"
                   , gtin := some gtin
                   , message := some ("Product with barcode " ++ gtin ++ " not found.") },
         tailCalls gtin (.ok data))
      else
        match data.product with
        | none => (.httpError 500 "unreachable", tailCalls gtin (.ok data))
        | some p =>
          (.response (get_success gtin p searchOk searchProducts), tailCalls gtin (.ok data))

/-! ## Helper lemmas -/

theorem string_data_append (a b : String) : (a ++ b).data = a.data ++ b.data := by
  obtain ⟨a⟩ := a; obtain ⟨b⟩ := b; rfl

theorem string_append_assoc (a b c : String) : (a ++ b) ++ c = a ++ (b ++ c) := by
  obtain ⟨a⟩ := a; obtain ⟨b⟩ := b; obtain ⟨c⟩ := c
  show String.mk _ = String.mk _
  rw [List.append_assoc]

/-! ## C3: barcode validation -/

theorem valid_gtin_iff (b : String) :
    valid_gtin b = true ↔
      (b.toList.all Char.isDigit = true ∧
        (b.length = 8 ∨ b.length = 12 ∨ b.length = 13 ∨ b.length = 14)) := by
  unfold valid_gtin python_isdigit
  constructor
  · intro h
    simp only [Bool.and_eq_true, Bool.or_eq_true, decide_eq_true_eq] at h
    exact ⟨h.1.2, by tauto⟩
  · rintro ⟨hd, hl⟩
    have hne : b.toList.isEmpty = false := by
      cases hlist : b.toList with
      | nil =>
        exfalso
        have h0 : b.length = 0 := congrArg List.length hlist
        omega
      | cons c cs => rfl
    simp only [Bool.and_eq_true, Bool.or_eq_true, decide_eq_true_eq]
    exact ⟨⟨by rw [hne]; rfl, hd⟩, by tauto⟩

theorem extract_accepts_iff (b : String) :
    extract_gtin_from_image (.symbols [b]) = some b ↔ valid_gtin b = true := by
  have hred : extract_gtin_from_image (.symbols [b]) =
      if valid_gtin b = true then some b else none := rfl
  rw [hred]
  cases h : valid_gtin b <;> simp [h]

/-- C3: a string is accepted as a valid barcode, both by the image
extractor validation and by the fetch-by-code endpoint guard, exactly when
it is all digits and its length is 8, 12, 13 or 14. -/
theorem C3_barcode_validation (b : String) :
    (valid_gtin b = true ∧ extract_gtin_from_image (.symbols [b]) = some b) ↔
      (b.toList.all Char.isDigit = true ∧
        (b.length = 8 ∨ b.length = 12 ∨ b.length = 13 ∨ b.length = 14)) := by
  rw [extract_accepts_iff, and_self, valid_gtin_iff]

/-! ## C4 and C5: alternatives filter -/

/-- C4: every alternative returned by the alternatives search has a mapped
eco-score strictly greater than the current mapped eco-score, and the
returned list is (as a sublist) in the relative order of the search
results. -/
theorem C4_alternatives_strictly_better (category : Option String) (searchOk : Bool)
    (products : List SearchProduct) (cur : String) :
    (∀ a ∈ fetch_alternatives category searchOk products cur,
      get_eco_score_value a.eco_score > get_eco_score_value cur) ∧
    (fetch_alternatives category searchOk products cur).Sublist
      (products.map mkAlternative) := by
  unfold fetch_alternatives
  by_cases hc : categoryTruthy category
  · by_cases hs : searchOk
    · simp only [hc, hs, Bool.not_true, Bool.false_eq_true, if_false]
      constructor
      · intro a ha
        have ha' := List.mem_of_mem_take ha
        obtain ⟨p, hp, rfl⟩ := List.mem_map.mp ha'
        have hq := List.of_mem_filter hp
        simpa [mkAlternative] using of_decide_eq_true hq
      · refine List.Sublist.trans (List.take_sublist ..) ?_
        refine List.Sublist.trans (List.Sublist.map _ (List.filter_sublist _)) ?_
        exact List.Sublist.map _ (List.take_sublist ..)
    · simp [hc, hs]
  · simp [hc]

/-- C4 witness: instantiation at a concrete candidate list where one
candidate passes the filter. -/
theorem C4_alternatives_strictly_better_witness :
    get_eco_score_value
        (mkAlternative { ecoscore_grade := some "a" : SearchProduct }).eco_score >
      get_eco_score_value "d" ∧
    (fetch_alternatives (some "snacks") true [{ ecoscore_grade := some "a" }] "d").Sublist
      ([({ ecoscore_grade := some "a" } : SearchProduct)].map mkAlternative) :=
  ⟨(C4_alternatives_strictly_better (some "snacks") true [{ ecoscore_grade := some "a" }] "d").1
      (mkAlternative { ecoscore_grade := some "a" }) (by decide),
   (C4_alternatives_strictly_better (some "snacks") true [{ ecoscore_grade := some "a" }] "d").2⟩

/-- C5: the alternatives list never has more than 3 entries, and it is empty
whenever the category argument is absent or the empty string. -/
theorem C5_alternatives_bound (category : Option String) (searchOk : Bool)
    (products : List SearchProduct) (cur : String) :
    (fetch_alternatives category searchOk products cur).length ≤ 3 ∧
    ((category = none ∨ category = some "") →
      fetch_alternatives category searchOk products cur = []) := by
  constructor
  · unfold fetch_alternatives
    by_cases hc : categoryTruthy category
    · by_cases hs : searchOk
      · simp only [hc, hs, Bool.not_true, Bool.false_eq_true, if_false]
        exact le_trans (List.length_take_le ..) (le_refl 3)
      · simp [hc, hs]
    · simp [hc]
  · rintro (rfl | rfl) <;> rfl

/-- C5 witness: the bound and the empty-category case at concrete inputs. -/
theorem C5_alternatives_bound_witness :
    (fetch_alternatives none true [{ ecoscore_grade := some "a" }] "d").length ≤ 3 ∧
    fetch_alternatives none true [{ ecoscore_grade := some "a" }] "d" = [] :=
  ⟨(C5_alternatives_bound none true [{ ecoscore_grade := some "a" }] "d").1,
   (C5_alternatives_bound none true [{ ecoscore_grade := some "a" }] "d").2 (Or.inl rfl)⟩

/-! ## C2: the scorer as an ordered rule list

The four rules of the specification, each producing the one recommendation
it appends when it fires and nothing otherwise, written from the words of
the claim to be compared with the embedded scorer. -/

/-- Rule 1 of the claim: figure present (nonzero) and above the threshold. -/
def carbonRule (carbon_footprint : ℚ) : List Recommendation :=
  if carbon_footprint ≠ 0 ∧ carbon_footprint > CARBON_THRESHOLD
  then [carbonRec carbon_footprint] else []

/-- Rule 2 of the claim: eco grade d or e fires a high entry, a or b a low
entry; at most one of the two fires. -/
def ecoRule (eco_score : String) : List Recommendation :=
  if eco_score ∈ ["d", "e"] then [ecoLowRec]
  else if eco_score ∈ ["a", "b"] then [ecoGoodRec]
  else []

/-- Rule 3 of the claim: nutrition grade d or e fires one medium entry with
the grade uppercased in its text. -/
def nutriRule (nutri_score : String) : List Recommendation :=
  if nutri_score ∈ ["d", "e"] then [nutriRec nutri_score] else []

/-- Rule 4 of the claim: some packaging tag contains the substring plastic,
case-insensitively. -/
def packagingRule (packaging_tags : List String) : List Recommendation :=
  if packaging_tags.any contains_plastic then [packagingRec] else []

/-- The scorer as the claim describes it: concatenate what the four rules
emit, in rule order, and fall back to the single default entry when no rule
fired. -/
def scorer_spec (product_data : ProductAttrs) (carbon_footprint : ℚ) :
    List Recommendation :=
  let fired :=
    carbonRule carbon_footprint
      ++ ecoRule (product_data.ecoscore_grade.getD "")
      ++ nutriRule (product_data.nutriscore_grade.getD "")
      ++ packagingRule product_data.packaging_tags
  if fired = [] then [defaultRec] else fired

theorem generate_eq_rules (product_data : ProductAttrs) (carbon_footprint : ℚ) :
    generate_recommendations product_data carbon_footprint =
      scorer_spec product_data carbon_footprint := by
  unfold generate_recommendations scorer_spec carbonRule ecoRule nutriRule packagingRule
  split_ifs <;> simp_all

/-- C2: the embedded scorer equals the rule-list description of the claim:
the four rules evaluated in the fixed order carbon, eco grade, nutrition
grade, packaging, each firing rule appending its one recommendation, and
the single default acceptable entry when no rule fired. -/
theorem C2_scorer_rule_order (product_data : ProductAttrs) (carbon_footprint : ℚ) :
    generate_recommendations product_data carbon_footprint =
      scorer_spec product_data carbon_footprint :=
  generate_eq_rules product_data carbon_footprint

/-! ## C9: uppercase eco grades fire no eco-grade rule -/

theorem carbonRec_ne_ecoLowRec (c : ℚ) : carbonRec c ≠ ecoLowRec := by
  intro h
  have h2 := congrArg Recommendation.icon h
  rw [show (carbonRec c).icon = "🌍" from rfl] at h2
  exact absurd h2 (by decide)

theorem carbonRec_ne_ecoGoodRec (c : ℚ) : carbonRec c ≠ ecoGoodRec := by
  intro h
  have h2 := congrArg Recommendation.icon h
  rw [show (carbonRec c).icon = "🌍" from rfl] at h2
  exact absurd h2 (by decide)

theorem nutriRec_ne_ecoLowRec (n : String) : nutriRec n ≠ ecoLowRec := by
  intro h
  have h2 := congrArg Recommendation.icon h
  rw [show (nutriRec n).icon = "❤️" from rfl] at h2
  exact absurd h2 (by decide)

theorem nutriRec_ne_ecoGoodRec (n : String) : nutriRec n ≠ ecoGoodRec := by
  intro h
  have h2 := congrArg Recommendation.icon h
  rw [show (nutriRec n).icon = "❤️" from rfl] at h2
  exact absurd h2 (by decide)

/-- An uppercase letter is none of the lowercase grade strings, at the level
of one-character strings. -/
theorem upper_notin_grades (g : String) (ch : Char) (h2 : g.data = [ch])
    (h3 : ch.isUpper = true) :
    g ∉ (["d", "e"] : List String) ∧ g ∉ (["a", "b"] : List String) := by
  have key : ∀ c : Char, c.isUpper = false → g ≠ ⟨[c]⟩ := by
    intro c hlow heq
    rw [heq] at h2
    have h : [c] = [ch] := h2
    injection h with h4 h5
    rw [← h4] at h3
    exact Bool.false_ne_true (hlow.symm.trans h3)
  refine ⟨?_, ?_⟩
  · intro hmem
    simp only [List.mem_cons, List.not_mem_nil, or_false] at hmem
    rcases hmem with heq | heq
    · exact key 'd' (by decide) heq
    · exact key 'e' (by decide) heq
  · intro hmem
    simp only [List.mem_cons, List.not_mem_nil, or_false] at hmem
    rcases hmem with heq | heq
    · exact key 'a' (by decide) heq
    · exact key 'b' (by decide) heq

/-- C9: when the eco grade of the product is a single uppercase letter, the
scorer appends neither the low-environmental-score entry nor the
good-environmental-score entry, because the membership tests compare the
raw grade against lowercase letters, while get_eco_score_value lowercases
and maps the grade D to 45. -/
theorem C9_uppercase_grade_no_eco_rule (product_data : ProductAttrs)
    (carbon_footprint : ℚ) (g : String) (ch : Char)
    (h1 : product_data.ecoscore_grade = some g) (h2 : g.data = [ch])
    (h3 : ch.isUpper = true) :
    ecoLowRec ∉ generate_recommendations product_data carbon_footprint ∧
    ecoGoodRec ∉ generate_recommendations product_data carbon_footprint ∧
    get_eco_score_value "D" = 45 := by
  obtain ⟨hde, hab⟩ := upper_notin_grades g ch h2 h3
  rw [generate_eq_rules]
  unfold scorer_spec
  have hecoRule : ecoRule (product_data.ecoscore_grade.getD "") = [] := by
    rw [h1]
    unfold ecoRule
    simp only [Option.getD_some]
    rw [if_neg hde, if_neg hab]
  refine ⟨?_, ?_, by decide⟩ <;>
  · simp only [hecoRule, List.append_nil]
    split
    · intro hmem
      have heq := List.mem_singleton.mp hmem
      exact absurd heq (by decide)
    · intro hmem
      rcases List.mem_append.mp hmem with hmem | hmem
      · rcases List.mem_append.mp hmem with hmem | hmem
        · unfold carbonRule at hmem
          split at hmem
          · have heq := List.mem_singleton.mp hmem
            first
            | exact carbonRec_ne_ecoLowRec _ heq.symm
            | exact carbonRec_ne_ecoGoodRec _ heq.symm
          · exact absurd hmem (List.not_mem_nil _)
        · unfold nutriRule at hmem
          split at hmem
          · have heq := List.mem_singleton.mp hmem
            first
            | exact nutriRec_ne_ecoLowRec _ heq.symm
            | exact nutriRec_ne_ecoGoodRec _ heq.symm
          · exact absurd hmem (List.not_mem_nil _)
      · unfold packagingRule at hmem
        split at hmem
        · have heq := List.mem_singleton.mp hmem
          exact absurd heq (by decide)
        · exact absurd hmem (List.not_mem_nil _)

/-- C9 witness: the concrete uppercase grade D fires neither eco-grade
recommendation although it maps to 45. -/
theorem C9_uppercase_grade_no_eco_rule_witness :
    ecoLowRec ∉ generate_recommendations { ecoscore_grade := some "D" } 0 ∧
    ecoGoodRec ∉ generate_recommendations { ecoscore_grade := some "D" } 0 ∧
    get_eco_score_value "D" = 45 :=
  C9_uppercase_grade_no_eco_rule { ecoscore_grade := some "D" } 0 "D" 'D' rfl rfl (by decide)

/-! ## C8: unrecognized candidate grades pass the filter under a d or e product -/

/-- Unrecognized grades map to the default score 50. -/
theorem unknown_grade_scores_50 (g : String)
    (h : str_lower g ∉ (["a", "b", "c", "d", "e"] : List String)) :
    get_eco_score_value g = 50 := by
  unfold get_eco_score_value
  simp only [List.mem_cons, List.not_mem_nil, or_false, not_or] at h
  obtain ⟨ha, hb, hc, hd, he⟩ := h
  rw [if_neg ha, if_neg hb, if_neg hc, if_neg hd, if_neg he]

/-- C8: when the current grade maps to 45 or 20 (grades d and e), a search
candidate with a missing or unrecognized eco grade maps to the default 50,
passes the strictly-better filter, and lands in the returned alternatives
list with its raw (empty or unknown) grade in the eco_score field. -/
theorem C8_unknown_grade_passes_filter (cur : String) (p : SearchProduct) (cat : String)
    (h1 : get_eco_score_value cur = 45 ∨ get_eco_score_value cur = 20)
    (h2 : str_lower (p.ecoscore_grade.getD "") ∉ (["a", "b", "c", "d", "e"] : List String))
    (h3 : cat.isEmpty = false) :
    get_eco_score_value (p.ecoscore_grade.getD "") = 50 ∧
    mkAlternative p ∈ fetch_alternatives (some cat) true [p] cur ∧
    (mkAlternative p).eco_score = p.ecoscore_grade.getD "" := by
  have h50 := unknown_grade_scores_50 _ h2
  refine ⟨h50, ?_, rfl⟩
  unfold fetch_alternatives
  have hcat : categoryTruthy (some cat) = true := by
    show (!cat.isEmpty) = true
    rw [h3]
    rfl
  rw [hcat]
  simp only [Bool.not_true, Bool.false_eq_true, if_false]
  have hfil : get_eco_score_value (p.ecoscore_grade.getD "") > get_eco_score_value cur := by
    rw [h50]
    rcases h1 with h1 | h1 <;> rw [h1] <;> norm_num
  simp only [List.take, List.filter]
  rw [decide_eq_true hfil]
  exact List.mem_singleton.mpr rfl

/-- C8 witness: a current grade d and one candidate with no eco grade. -/
theorem C8_unknown_grade_passes_filter_witness :
    get_eco_score_value (({ } : SearchProduct).ecoscore_grade.getD "") = 50 ∧
    mkAlternative { } ∈ fetch_alternatives (some "snacks") true [{ }] "d" ∧
    (mkAlternative { }).eco_score = ({ } : SearchProduct).ecoscore_grade.getD "" :=
  C8_unknown_grade_passes_filter "d" { } "snacks" (Or.inl (by decide)) (by decide) (by decide)

/-! ## The carbon recommendation appears in the scorer output exactly when
the passed figure beats the threshold -/

/-- A string of the form High-carbon-footprint-plus-rest, the shape of the
carbon recommendation text. -/
def HasHighCarbonText (r : Recommendation) : Prop :=
  ∃ rest : String, r.text = "High carbon footprint" ++ rest

theorem carbonRec_text_shape (c : ℚ) : HasHighCarbonText (carbonRec c) := by
  refine ⟨" (" ++ (formatTwoDec c ++ " kg CO2e). Consider eco-friendly alternatives below."), ?_⟩
  show "High carbon footprint (" ++ formatTwoDec c ++ " kg CO2e). Consider eco-friendly alternatives below."
      = "High carbon footprint" ++ (" (" ++ (formatTwoDec c ++ " kg CO2e). Consider eco-friendly alternatives below."))
  rw [← string_append_assoc, ← string_append_assoc]
  rfl

theorem ecoLowRec_not_carbon_text : ¬ HasHighCarbonText ecoLowRec := by
  rintro ⟨rest, hrest⟩
  obtain ⟨r⟩ := rest
  have h1 : (ecoLowRec.text).data.head? = some 'H' := by
    rw [hrest]
    exact rfl
  have h2 : (some 'L' : Option Char) = some 'H' := h1
  exact absurd (Option.some.inj h2) (by decide)

/-- The scorer output contains a high-priority recommendation whose text
begins with High carbon footprint exactly when the figure it was passed is
nonzero and above the carbon threshold. -/
theorem hcf_mem_iff (product_data : ProductAttrs) (c : ℚ) :
    (∃ r ∈ generate_recommendations product_data c,
        r.priority = "high" ∧ HasHighCarbonText r) ↔
      (c ≠ 0 ∧ c > CARBON_THRESHOLD) := by
  rw [generate_eq_rules]
  simp only [scorer_spec]
  constructor
  · rintro ⟨r, hmem, hpri, htext⟩
    by_contra hguard
    revert hmem
    split
    · intro hmem
      have heq := List.mem_singleton.mp hmem
      rw [heq] at hpri
      exact absurd hpri (by decide)
    · intro hmem
      rcases List.mem_append.mp hmem with hmem | hmem
      · rcases List.mem_append.mp hmem with hmem | hmem
        · rcases List.mem_append.mp hmem with hmem | hmem
          · unfold carbonRule at hmem
            split at hmem
            · exact hguard (by assumption)
            · exact absurd hmem (List.not_mem_nil _)
          · unfold ecoRule at hmem
            split at hmem
            · rw [List.mem_singleton.mp hmem] at htext
              exact ecoLowRec_not_carbon_text htext
            · split at hmem
              · rw [List.mem_singleton.mp hmem] at hpri
                exact absurd hpri (by decide)
              · exact absurd hmem (List.not_mem_nil _)
        · unfold nutriRule at hmem
          split at hmem
          · rw [List.mem_singleton.mp hmem] at hpri
            exact absurd (show ("medium" : String) = "high" from hpri) (by decide)
          · exact absurd hmem (List.not_mem_nil _)
      · unfold packagingRule at hmem
        split at hmem
        · rw [List.mem_singleton.mp hmem] at hpri
          exact absurd hpri (by decide)
        · exact absurd hmem (List.not_mem_nil _)
  · intro hguard
    refine ⟨carbonRec c, ?_, rfl, carbonRec_text_shape c⟩
    have hfire : carbonRule c = [carbonRec c] := by
      unfold carbonRule
      rw [if_pos hguard]
    split
    · rename_i hnil
      rw [hfire] at hnil
      exact absurd hnil (by simp)
    · exact List.mem_append.mpr (Or.inl (List.mem_append.mpr (Or.inl
        (List.mem_append.mpr (Or.inl (by rw [hfire]; exact List.mem_singleton.mpr rfl))))))

/-! ## C1: the high-carbon flag of every constructed response -/

theorem scan_success_hc (gtin : String) (p : ProductAttrs) (searchOk : Bool)
    (searchProducts : List SearchProduct) :
    (scan_success gtin p searchOk searchProducts).is_high_carbon
      = match extractCarbon p with
        | none => false
        | some c => decide (c > CARBON_THRESHOLD) := rfl

theorem scan_success_cf (gtin : String) (p : ProductAttrs) (searchOk : Bool)
    (searchProducts : List SearchProduct) :
    (scan_success gtin p searchOk searchProducts).carbon_footprint = extractCarbon p := rfl

/-- The flag-versus-figure equivalence for any response whose flag is
computed from its carbon figure the way both endpoints compute it. -/
theorem response_hc_iff (r : ProductResponse)
    (h : r.is_high_carbon
      = match r.carbon_footprint with
        | none => false
        | some c => decide (c > CARBON_THRESHOLD)) :
    (r.is_high_carbon = true ↔
      ∃ c, r.carbon_footprint = some c ∧ c > CARBON_THRESHOLD) := by
  rw [h]
  cases hc : r.carbon_footprint with
  | none => simp
  | some c => simp [decide_eq_true_eq]

theorem scan_result_hc (image_data : List UInt8) (decodeRes : DecodeOutcome)
    (fetch : FetchOutcome) (searchOk : Bool) (searchProducts : List SearchProduct)
    (r : ProductResponse)
    (h : (scan_product image_data decodeRes fetch searchOk searchProducts).1 = .response r) :
    (r.is_high_carbon = true ↔
      ∃ c, r.carbon_footprint = some c ∧ c > CARBON_THRESHOLD) := by
  unfold scan_product at h
  split at h
  · simp at h
  · split at h
    · simp only at h
      rw [EndpointResult.response.injEq] at h
      rw [← h]
      exact response_hc_iff _ rfl
    · split at h
      · simp at h
      · split at h
        · simp only at h
          rw [EndpointResult.response.injEq] at h
          rw [← h]
          exact response_hc_iff _ rfl
        · split at h
          · simp at h
          · simp only at h
            rw [EndpointResult.response.injEq] at h
            rw [← h]
            exact response_hc_iff _ rfl

theorem get_result_hc (gtin : String) (fetch : FetchOutcome) (searchOk : Bool)
    (searchProducts : List SearchProduct) (r : ProductResponse)
    (h : (get_product gtin fetch searchOk searchProducts).1 = .response r) :
    (r.is_high_carbon = true ↔
      ∃ c, r.carbon_footprint = some c ∧ c > CARBON_THRESHOLD) := by
  unfold get_product at h
  split at h
  · simp at h
  · split at h
    · simp at h
    · split at h
      · simp only at h
        rw [EndpointResult.response.injEq] at h
        rw [← h]
        exact response_hc_iff _ rfl
      · split at h
        · simp at h
        · simp only at h
          rw [EndpointResult.response.injEq] at h
          rw [← h]
          exact response_hc_iff _ rfl

/-- C1: for every response either endpoint constructs, the is_high_carbon
field is true exactly when the nested carbon figure was extracted and is
strictly greater than the 2.0 threshold. -/
theorem C1_high_carbon_flag (image_data : List UInt8) (decodeRes : DecodeOutcome)
    (fetch : FetchOutcome) (searchOk : Bool) (searchProducts : List SearchProduct)
    (gtin : String) (r1 r2 : ProductResponse)
    (h1 : (scan_product image_data decodeRes fetch searchOk searchProducts).1 = .response r1)
    (h2 : (get_product gtin fetch searchOk searchProducts).1 = .response r2) :
    (r1.is_high_carbon = true ↔
      ∃ c, r1.carbon_footprint = some c ∧ c > CARBON_THRESHOLD) ∧
    (r2.is_high_carbon = true ↔
      ∃ c, r2.carbon_footprint = some c ∧ c > CARBON_THRESHOLD) :=
  ⟨scan_result_hc image_data decodeRes fetch searchOk searchProducts r1 h1,
   get_result_hc gtin fetch searchOk searchProducts r2 h2⟩

/-- C1 witness: both endpoints run on a concrete found product. -/
theorem C1_high_carbon_flag_witness :
    ((scan_success "12345678" { } true [ ]).is_high_carbon = true ↔
      ∃ c, (scan_success "12345678" { } true [ ]).carbon_footprint = some c ∧
        c > CARBON_THRESHOLD) ∧
    ((get_success "12345678" { } true [ ]).is_high_carbon = true ↔
      ∃ c, (get_success "12345678" { } true [ ]).carbon_footprint = some c ∧
        c > CARBON_THRESHOLD) :=
  C1_high_carbon_flag [1] (.symbols ["12345678"])
    (.ok { status := some 1, product := some { } }) true [ ] "12345678"
    (scan_success "12345678" { } true [ ]) (get_success "12345678" { } true [ ])
    rfl rfl

/-! ## C6: upstream not-found short-circuit -/

/-- C6: when the upstream document has status 0 or no product object, both
endpoints return a normal response with status not_found, the queried
barcode in the gtin field, and the descriptive message built from the
barcode. -/
theorem C6_upstream_not_found (gtin : String) (data : UpstreamData)
    (searchOk : Bool) (searchProducts : List SearchProduct)
    (image_data : List UInt8) (decodeRes : DecodeOutcome)
    (hval : valid_gtin gtin = true)
    (hnf : data.status = some 0 ∨ data.product = none)
    (himg : image_data.isEmpty = false)
    (hdec : extract_gtin_from_image decodeRes = some gtin) :
    (get_product gtin (.ok data) searchOk searchProducts).1 =
      .response { status := "not_found", gtin := some gtin,
                  message := some ("Product with barcode " ++ gtin ++ " not found.") } ∧
    (scan_product image_data decodeRes (.ok data) searchOk searchProducts).1 =
      .response { status := "not_found", gtin := some gtin,
                  message := some ("Product with barcode " ++ gtin ++ " not found in database.") } := by
  have hcond : data.product = none ∨ data.status = some 0 := hnf.symm
  constructor
  · unfold get_product
    rw [hval]
    simp only [Bool.not_true, Bool.false_eq_true, if_false]
    rw [if_pos hcond]
  · unfold scan_product
    rw [himg]
    simp only [Bool.false_eq_true, if_false]
    rw [hdec]
    simp only []
    rw [if_pos hcond]

/-- C6 witness: a valid barcode with an upstream status-0 document. -/
theorem C6_upstream_not_found_witness :
    (get_product "12345678" (.ok { status := some 0 }) true [ ]).1 =
      .response { status := "not_found", gtin := some "12345678",
                  message := some ("Product with barcode " ++ "12345678" ++ " not found.") } ∧
    (scan_product [1] (.symbols ["12345678"]) (.ok { status := some 0 }) true [ ]).1 =
      .response { status := "not_found", gtin := some "12345678",
                  message := some ("Product with barcode " ++ "12345678" ++ " not found in database.") } :=
  C6_upstream_not_found "12345678" { status := some 0 } true [ ] [1]
    (.symbols ["12345678"]) (by decide) (Or.inl rfl) (by decide) (by decide)

/-! ## C7: client errors are raised before any outbound call -/

/-- C7: an empty upload on scan-by-image and a malformed barcode on
fetch-by-code each produce a 400 error, with the list of outbound calls of
the request empty. -/
theorem C7_client_error_before_network (gtin : String) (image_data : List UInt8)
    (decodeRes : DecodeOutcome) (fetch : FetchOutcome) (searchOk : Bool)
    (searchProducts : List SearchProduct)
    (hbad : valid_gtin gtin = false) (himg : image_data.isEmpty = true) :
    get_product gtin fetch searchOk searchProducts =
      (.httpError 400 "Invalid barcode format", []) ∧
    scan_product image_data decodeRes fetch searchOk searchProducts =
      (.httpError 400 "Empty image file", []) := by
  constructor
  · unfold get_product
    rw [hbad]
    rfl
  · unfold scan_product
    rw [himg]
    rfl

/-- C7 witness: the three-digit barcode of the scenario and an empty upload. -/
theorem C7_client_error_before_network_witness :
    get_product "123" (.ok { }) true [ ] =
      (.httpError 400 "Invalid barcode format", []) ∧
    scan_product [ ] (.symbols ["12345678"]) (.ok { }) true [ ] =
      (.httpError 400 "Empty image file", []) :=
  C7_client_error_before_network "123" [ ] (.symbols ["12345678"]) (.ok { }) true [ ]
    (by decide) (by decide)

/-! ## C10: the carbon recommendation appears exactly when the flag is set -/

/-- On the success path both endpoints pass the figure through orZero before
scoring, and the flag is the extracted-figure threshold test; the two agree. -/
theorem success_c10_core (p : ProductAttrs) :
    ((match extractCarbon p with
      | none => false
      | some c => decide (c > CARBON_THRESHOLD)) = true
      ↔ ∃ rec ∈ generate_recommendations p (orZero (extractCarbon p)),
          rec.priority = "high" ∧ HasHighCarbonText rec) := by
  rw [hcf_mem_iff]
  cases hc : extractCarbon p with
  | none =>
    simp only [orZero]
    norm_num
  | some c =>
    by_cases h0 : c = 0
    · subst h0
      simp only [orZero, if_pos rfl]
      norm_num [CARBON_THRESHOLD]
    · simp only [orZero, if_neg h0, decide_eq_true_eq]
      constructor
      · intro h
        exact ⟨h0, h⟩
      · exact fun h => h.2

theorem scan_result_c10 (image_data : List UInt8) (decodeRes : DecodeOutcome)
    (fetch : FetchOutcome) (searchOk : Bool) (searchProducts : List SearchProduct)
    (r : ProductResponse)
    (h : (scan_product image_data decodeRes fetch searchOk searchProducts).1 = .response r) :
    (r.is_high_carbon = true ↔
      ∃ rec ∈ r.recommendations, rec.priority = "high" ∧ HasHighCarbonText rec) := by
  unfold scan_product at h
  split at h
  · simp at h
  · split at h
    · simp only at h
      rw [EndpointResult.response.injEq] at h
      rw [← h]
      simp
    · split at h
      · simp at h
      · split at h
        · simp only at h
          rw [EndpointResult.response.injEq] at h
          rw [← h]
          simp
        · split at h
          · simp at h
          · simp only at h
            rw [EndpointResult.response.injEq] at h
            rw [← h]
            exact success_c10_core _

theorem get_result_c10 (gtin : String) (fetch : FetchOutcome) (searchOk : Bool)
    (searchProducts : List SearchProduct) (r : ProductResponse)
    (h : (get_product gtin fetch searchOk searchProducts).1 = .response r) :
    (r.is_high_carbon = true ↔
      ∃ rec ∈ r.recommendations, rec.priority = "high" ∧ HasHighCarbonText rec) := by
  unfold get_product at h
  split at h
  · simp at h
  · split at h
    · simp at h
    · split at h
      · simp only at h
        rw [EndpointResult.response.injEq] at h
        rw [← h]
        simp
      · split at h
        · simp at h
        · simp only at h
          rw [EndpointResult.response.injEq] at h
          rw [← h]
          exact success_c10_core _

/-- C10: in every response either endpoint constructs, the recommendation
list contains a priority-high entry whose text begins with High carbon
footprint exactly when is_high_carbon is true; in particular an absent
figure is passed to the scorer as 0 and never fires the carbon rule. -/
theorem C10_carbon_rec_iff_flag (image_data : List UInt8) (decodeRes : DecodeOutcome)
    (fetch : FetchOutcome) (searchOk : Bool) (searchProducts : List SearchProduct)
    (gtin : String) (r1 r2 : ProductResponse)
    (h1 : (scan_product image_data decodeRes fetch searchOk searchProducts).1 = .response r1)
    (h2 : (get_product gtin fetch searchOk searchProducts).1 = .response r2) :
    (r1.is_high_carbon = true ↔
      ∃ rec ∈ r1.recommendations, rec.priority = "high" ∧ HasHighCarbonText rec) ∧
    (r2.is_high_carbon = true ↔
      ∃ rec ∈ r2.recommendations, rec.priority = "high" ∧ HasHighCarbonText rec) :=
  ⟨scan_result_c10 image_data decodeRes fetch searchOk searchProducts r1 h1,
   get_result_c10 gtin fetch searchOk searchProducts r2 h2⟩

/-- C10 witness: both endpoints run on a concrete found product whose
figure is absent. -/
theorem C10_carbon_rec_iff_flag_witness :
    ((scan_success "87654321" { } false [ ]).is_high_carbon = true ↔
      ∃ rec ∈ (scan_success "87654321" { } false [ ]).recommendations,
        rec.priority = "high" ∧ HasHighCarbonText rec) ∧
    ((get_success "87654321" { } false [ ]).is_high_carbon = true ↔
      ∃ rec ∈ (get_success "87654321" { } false [ ]).recommendations,
        rec.priority = "high" ∧ HasHighCarbonText rec) :=
  C10_carbon_rec_iff_flag [1] (.symbols ["87654321"])
    (.ok { status := some 1, product := some { } }) false [ ] "87654321"
    (scan_success "87654321" { } false [ ]) (get_success "87654321" { } false [ ])
    rfl rfl

end EcoScan
